import Mathlib

/-!
# Verification of the TAUTY admin panel (frontend/src/pages/Admin.js)

Shallow embedding of the image normalizer (`optimizeImage`), the file
selection handler (`handleImageChange`), the product form submission
handler (`handleSubmit`) and the edit-dialog opener (`handleEdit`) of the
`Admin` React component, together with proofs of the specification's
testable properties.

JavaScript numbers are modelled as rationals (`ℚ`); the `NaN` produced by
`parseFloat`/`parseInt` on non-numeric text is modelled as `Option.none`.
The HTML canvas truncates a fractional width/height to an integer when it
is assigned (WebIDL unsigned-long conversion truncates toward zero; all
values here are nonnegative, so this is the floor).  JPEG encoding of the
drawn canvas is kept abstract as a function argument `enc` from the file
and the canvas dimensions to the base64 text of the encoded bytes; a data
URL `canvas.toDataURL(mime, quality)` is represented structurally by its
mime type, its quality factor and its base64 payload (the JS code recovers
the payload with `split(',')[1]`, which is exact because the base64
alphabet contains no comma).
-/

namespace Tauty

/-- A value held in a form field: JS strings and finite JS numbers.
`handleInputChange` stores strings; `handleEdit` stores the product's
numeric `price` and `stock` directly. -/
inductive JSVal where
  | str (s : String)
  | num (q : ℚ)
deriving DecidableEq, Repr

/-- JS truthiness of a form-field value: a string is truthy iff nonempty,
a (finite) number is truthy iff nonzero. -/
def JSVal.truthy : JSVal → Bool
  | .str s => s ≠ ""
  | .num q => q ≠ 0

/-- JS `a || ''` for a string `a`. -/
def jsOrStr (a b : String) : String :=
  if a = "" then b else a

/-- JS `v || 0` where `v : Option ℚ` models a number-or-NaN:
`NaN || 0 = 0`, `0 || 0 = 0`, and a nonzero number is itself. -/
def jsOrZeroQ (v : Option ℚ) : ℚ :=
  match v with
  | none => 0
  | some q => q

/-- JS `v || 0` where `v : Option ℤ` models an integer-or-NaN. -/
def jsOrZeroZ (v : Option ℤ) : ℤ :=
  match v with
  | none => 0
  | some z => z

/-- Whitespace accepted (and skipped) by `parseInt` / `parseFloat`. -/
def isJsWS (c : Char) : Bool :=
  c = ' ' ∨ c = '\t' ∨ c = '\n' ∨ c = '\r'

/-- Drop leading whitespace. -/
def skipWS : List Char → List Char
  | [] => []
  | c :: cs => if isJsWS c then skipWS cs else c :: cs

/-- Value of a list of decimal digits. -/
def digitsVal (ds : List Char) : ℕ :=
  ds.foldl (fun a c => 10 * a + (c.toNat - 48)) 0

/-- Consume an optional leading sign, returning the sign and the rest. -/
def jsSign : List Char → ℤ × List Char
  | '-' :: cs => (-1, cs)
  | '+' :: cs => (1, cs)
  | cs => (1, cs)

/-- JS `parseInt(s, 10)`: skip whitespace, optional sign, then the longest
prefix of decimal digits; `NaN` (here `none`) when that prefix is empty. -/
def jsParseInt (str : String) : Option ℤ :=
  let cs := skipWS str.toList
  let sg := (jsSign cs).1
  let cs1 := (jsSign cs).2
  let ds := cs1.takeWhile (·.isDigit)
  if ds.isEmpty then none else some (sg * (digitsVal ds : ℤ))

/-- JS `parseFloat(s)`: skip whitespace, optional sign, integer digits,
optional fraction, optional exponent; `NaN` (here `none`) when no digit
occurs before or after the decimal point. -/
def jsParseFloat (str : String) : Option ℚ :=
  let cs := skipWS str.toList
  let sg := (jsSign cs).1
  let cs1 := (jsSign cs).2
  let ips := cs1.takeWhile (·.isDigit)
  let cs2 := cs1.dropWhile (·.isDigit)
  let fps : List Char := match cs2 with
    | '.' :: rest => rest.takeWhile (·.isDigit)
    | _ => []
  let cs3 : List Char := match cs2 with
    | '.' :: rest => rest.dropWhile (·.isDigit)
    | _ => cs2
  if ips.isEmpty ∧ fps.isEmpty then none
  else
    let mant : ℚ := (digitsVal ips : ℚ) + (digitsVal fps : ℚ) / (10 : ℚ) ^ fps.length
    let ex : ℤ := match cs3 with
      | c :: rest =>
        if c = 'e' ∨ c = 'E' then
          let esg := (jsSign rest).1
          let eds := (jsSign rest).2.takeWhile (·.isDigit)
          if eds.isEmpty then 0 else esg * (digitsVal eds : ℤ)
        else 0
      | [] => 0
    some ((sg : ℚ) * mant * (10 : ℚ) ^ ex)

/-- Truncation toward zero of a rational, as JS `parseInt(String(q), 10)`
behaves on a (decimal, non-exponent-notation) number. -/
def ratTrunc (q : ℚ) : ℤ :=
  if 0 ≤ q then ⌊q⌋ else -⌊-q⌋

/-- `parseFloat` applied to a form-field value (a number converts to its
decimal string and parses back to itself). -/
def parseFloatVal : JSVal → Option ℚ
  | .str s => jsParseFloat s
  | .num q => some q

/-- `parseInt(·, 10)` applied to a form-field value. -/
def parseIntVal : JSVal → Option ℤ
  | .str s => jsParseInt s
  | .num q => some (ratTrunc q)

/-- The image payload embedded in create/update requests:
`{data: base64, contentType, alt}`. -/
structure ImagePayload where
  data : String
  contentType : String
  alt : String
deriving DecidableEq, Repr

/-- The admin form state (`formData`). -/
structure FormData where
  name : String
  description : String
  price : JSVal
  category : String
  stock : JSVal
  image : Option ImagePayload
deriving DecidableEq, Repr

/-- A catalog product as held in the `products` list. -/
structure Product where
  id : String
  name : String
  description : String
  price : ℚ
  category : String
  stock : ℤ
  image : Option ImagePayload
deriving DecidableEq, Repr

/-- The component state of `Admin` that the handlers read and write. -/
structure AdminState where
  products : List Product
  loading : Bool
  error : Option String
  openDialog : Bool
  editingProduct : Option Product
  formData : FormData
deriving DecidableEq, Repr

/-- A user-selected file: declared MIME type, byte size, and the decode
outcome of its content (`some (w, h)` = decodes to a `w × h` raster,
`none` = the browser's image decoder fails). -/
structure JSFile where
  type : String
  size : ℕ
  decode : Option (ℕ × ℕ)
deriving DecidableEq, Repr

/-! ## The image normalizer `optimizeImage` (Admin.js lines 72–113) -/

/-- The bounding-box computation of `optimizeImage` (lines 77–94), on exact
rationals: `MAX_WIDTH = MAX_HEIGHT = 800`; when `width > height` and
`width > 800`, `height *= 800 / width; width = 800`; in the other branch
symmetrically with the height. -/
def computeDims (w h : ℚ) : ℚ × ℚ :=
  if w > h then
    if w > 800 then (800, h * (800 / w)) else (w, h)
  else
    if h > 800 then (w * (800 / h), 800) else (w, h)

/-- Assigning a (nonnegative) fractional value to `canvas.width` /
`canvas.height` truncates it to an integer. -/
def canvasDim (q : ℚ) : ℕ :=
  (⌊q⌋).toNat

/-- The raster dimensions of the off-screen canvas `optimizeImage` draws
into, for an input that decoded to a `w × h` raster. -/
def outputDims (w h : ℕ) : ℕ × ℕ :=
  (canvasDim (computeDims (w : ℚ) (h : ℚ)).1, canvasDim (computeDims (w : ℚ) (h : ℚ)).2)

/-- The sizing rule exactly as the specification words it: if
`width ≥ height` the output width is `min(width, 800)` and the height
scales proportionally; otherwise the output height is `min(height, 800)`
and the width scales proportionally. -/
def specTargetSize (w h : ℚ) : ℚ × ℚ :=
  if w ≥ h then (min w 800, h * (min w 800 / w))
  else (w * (min h 800 / h), min h 800)

/-- The result of `canvas.toDataURL(mime, quality)`, structurally: mime
type, quality factor, and the base64 text of the encoded bytes. -/
structure DataURL where
  mime : String
  quality : ℚ
  base64 : String
deriving DecidableEq, Repr

/-- `optimizeImage(file)` (lines 72–113): decode the file into an image;
on success scale it into the 800×800 bounding box on an off-screen canvas
and re-encode via `canvas.toDataURL('image/jpeg', 0.8)`; a decode failure
rejects the promise (`none`).  `enc` abstracts the JPEG bytes obtained by
drawing `file`'s image at the given canvas dimensions. -/
def optimizeImage (enc : JSFile → ℕ → ℕ → String) (file : JSFile) : Option DataURL :=
  match file.decode with
  | none => none
  | some (w, h) =>
    let d := computeDims (w : ℚ) (h : ℚ)
    some { mime := "image/jpeg", quality := 4/5,
           base64 := enc file (canvasDim d.1) (canvasDim d.2) }

/-- Character-list prefix test. -/
def charsBeginWith : List Char → List Char → Bool
  | _, [] => true
  | [], _ :: _ => false
  | c :: cs, d :: ds => decide (c = d) && charsBeginWith cs ds

/-- JS `s.startsWith(p)`: does `s` begin with the characters of `p`. -/
def jsStartsWith (s p : String) : Bool :=
  charsBeginWith s.toList p.toList

/-! ## `handleImageChange` (Admin.js lines 115–149)

The returned `Bool` records whether a decode of the file content was
attempted (i.e. whether control reached `await optimizeImage(file)`): the
type and size rejections return before it. -/

/-- `handleImageChange(e)` with `e.target.files[0]` as `file?`. -/
def handleImageChange (enc : JSFile → ℕ → ℕ → String) (file? : Option JSFile)
    (s : AdminState) : AdminState × Bool :=
  match file? with
  | none => (s, false)
  | some file =>
    if ¬ (jsStartsWith file.type "image/" = true) then
      ({ s with error := some "Please select an image file" }, false)
    else if file.size > 5 * 1024 * 1024 then
      ({ s with error := some "Image size should be less than 5MB" }, false)
    else
      match optimizeImage enc file with
      | none => ({ s with error := some "Error processing the image" }, true)
      | some url =>
        ({ s with
            formData := { s.formData with
              image := some { data := url.base64, contentType := "image/jpeg",
                              alt := jsOrStr s.formData.name "" } },
            error := none }, true)

/-! ## `handleSubmit` (Admin.js lines 151–212) and friends -/

/-- The JSON body `dataToSend` of a create/update request. -/
structure DataToSend where
  name : String
  description : String
  price : ℚ
  category : String
  stock : ℤ
  image : ImagePayload
deriving DecidableEq, Repr

/-- A network call issued through `productService`. -/
inductive NetworkCall where
  | create (d : DataToSend)
  | update (id : String) (d : DataToSend)
deriving DecidableEq, Repr

/-- The stock carried by a create/update call. -/
def NetworkCall.stockOf : NetworkCall → ℤ
  | .create d => d.stock
  | .update _ d => d.stock

/-- `!formData.name || !formData.description || !formData.price ||
!formData.category` (line 155). -/
def requiredMissing (fd : FormData) : Bool :=
  !(fd.name ≠ "" && fd.description ≠ "" && fd.price.truthy && fd.category ≠ "")

/-- `parseFloat(formData.price) || 0` (line 169). -/
def priceSent (fd : FormData) : ℚ :=
  jsOrZeroQ (parseFloatVal fd.price)

/-- `parseInt(formData.stock, 10) || 0` (line 171). -/
def stockSent (fd : FormData) : ℤ :=
  jsOrZeroZ (parseIntVal fd.stock)

/-- The `dataToSend` object (lines 166–177), given the present image. -/
def mkDataToSend (fd : FormData) (img : ImagePayload) : DataToSend :=
  { name := fd.name, description := fd.description, price := priceSent fd,
    category := fd.category, stock := stockSent fd,
    image := { data := img.data, contentType := img.contentType, alt := fd.name } }

/-- The create/update call issued at lines 190–194: update when a product
is being edited, create otherwise. -/
def submitCall (ep : Option Product) (d : DataToSend) : NetworkCall :=
  match ep with
  | some p => NetworkCall.update p.id d
  | none => NetworkCall.create d

/-- The blank form installed after a successful save (lines 196–203);
note it presets `category: 'men'` and `stock: '0'`. -/
def emptyFormMen : FormData :=
  { name := "", description := "", price := .str "", category := "men",
    stock := .str "0", image := none }

/-- `fetchProducts` (lines 48–58): replace the products list on success,
set `'Failed to load products'` on failure; either way clear `loading`. -/
def fetchProducts (fetchOk : Bool) (fetched : List Product) (s : AdminState) : AdminState :=
  if fetchOk then { s with products := fetched, loading := false }
  else { s with error := some "Failed to load products", loading := false }

/-- `handleSubmit(e)`.  `backendOk` is the outcome of the awaited
create/update call, `fetchOk`/`fetched` the outcome of the follow-up
`fetchProducts()`.  Besides the new state it returns the list of
create/update network calls issued (in order). -/
def handleSubmit (backendOk fetchOk : Bool) (fetched : List Product)
    (s : AdminState) : AdminState × List NetworkCall :=
  if requiredMissing s.formData then
    ({ s with error := some "Please fill in all required fields" }, [])
  else
    -- `if (!formData.image?.data)` (line 160)
    match s.formData.image with
    | none => ({ s with error := some "Please select an image" }, [])
    | some img =>
      if img.data = "" then
        ({ s with error := some "Please select an image" }, [])
      else
        let d := mkDataToSend s.formData img
        -- `isNaN(dataToSend.price)` is identically false after `|| 0`
        if d.price ≤ 0 then
          ({ s with error := some "Please enter a valid price" }, [])
        else if d.stock < 0 then
          ({ s with error := some "Please enter a valid stock quantity" }, [])
        else
          let call := submitCall s.editingProduct d
          if backendOk then
            (fetchProducts fetchOk fetched
              { s with formData := emptyFormMen, error := none,
                       editingProduct := none, openDialog := false }, [call])
          else
            ({ s with error := some "Failed to save product" }, [call])

/-- `handleEdit(product)` (lines 226–237). -/
def handleEdit (p : Product) (s : AdminState) : AdminState :=
  { s with
      editingProduct := some p,
      formData := { name := p.name, description := p.description,
                    price := .num p.price, category := p.category,
                    stock := .num (p.stock : ℚ), image := none },
      openDialog := true }

/-! ## Concrete fixtures used to instantiate the theorems -/

/-- A concrete encoder: every drawn canvas encodes to the same base64 text. -/
def wEnc : JSFile → ℕ → ℕ → String := fun _ _ _ => "QkFTRTY0"

/-- A concrete already-accepted image payload. -/
def wImg : ImagePayload :=
  { data := "QkFTRTY0", contentType := "image/jpeg", alt := "Shirt" }

/-- A fully valid form: every required field filled, price 5, stock 1,
image present. -/
def wFormValid : FormData :=
  { name := "Shirt", description := "Linen", price := .str "5",
    category := "men", stock := .str "1", image := some wImg }

/-- The component's initial form (lines 39–46): all fields empty. -/
def initialForm : FormData :=
  { name := "", description := "", price := .str "", category := "",
    stock := .str "", image := none }

/-- A state holding the given form with the dialog open. -/
def wState (fd : FormData) : AdminState :=
  { products := [], loading := false, error := none, openDialog := true,
    editingProduct := none, formData := fd }

/-- A selected file that is not an image. -/
def wFileText : JSFile := { type := "text/plain", size := 10, decode := none }

/-- An oversized image file (6,000,000 bytes > 5 MiB). -/
def wFileBig : JSFile :=
  { type := "image/png", size := 6000000, decode := some (10, 10) }

/-- An image file whose content fails to decode. -/
def wFileBroken : JSFile := { type := "image/png", size := 1000, decode := none }

/-- An accepted 100×50 image file. -/
def wFileGood : JSFile :=
  { type := "image/png", size := 1000, decode := some (100, 50) }

/-- A stored product used to exercise `handleEdit`. -/
def wProd : Product :=
  { id := "p1", name := "Shirt", description := "Linen", price := 5,
    category := "men", stock := 3, image := some wImg }

/-- The valid form with the stock field left empty. -/
def c3EmptyStockForm : FormData := { wFormValid with stock := .str "" }

/-- The valid form with a negative stock typed in. -/
def c3NegStockForm : FormData := { wFormValid with stock := .str "-3" }

/-- The valid form with a non-numeric price typed in. -/
def c4BadPriceForm : FormData := { wFormValid with price := .str "abc" }

/-- The valid form with price 0 typed in. -/
def c7ZeroPriceForm : FormData := { wFormValid with price := .str "0" }

/-- The valid form with the image payload removed. -/
def c7NoImageForm : FormData := { wFormValid with image := none }

/-! ## Helper lemmas about the normalizer's size computation -/

/-- For positive inputs both computed dimensions are positive and at most
800 (the scaled-down side stays under the box because the scale factor is
at most one). -/
theorem computeDims_bounds (w h : ℚ) (hw : 0 < w) (hh : 0 < h) :
    0 < (computeDims w h).1 ∧ 0 < (computeDims w h).2 ∧
      (computeDims w h).1 ≤ 800 ∧ (computeDims w h).2 ≤ 800 := by
  unfold computeDims
  split_ifs with h1 h2 h3
  · refine ⟨by norm_num, by positivity, by norm_num, ?_⟩
    have hr : (0:ℚ) ≤ 800 / w := by positivity
    calc h * (800 / w) ≤ w * (800 / w) := mul_le_mul_of_nonneg_right h1.le hr
      _ = 800 := by field_simp
  · exact ⟨hw, hh, not_lt.mp h2, le_trans h1.le (not_lt.mp h2)⟩
  · refine ⟨by positivity, by norm_num, ?_, by norm_num⟩
    have hr : (0:ℚ) ≤ 800 / h := by positivity
    calc w * (800 / h) ≤ h * (800 / h) := mul_le_mul_of_nonneg_right (not_lt.mp h1) hr
      _ = 800 := by field_simp
  · exact ⟨hw, hh, le_trans (not_lt.mp h1) (not_lt.mp h3), not_lt.mp h3⟩

/-- The computed pair has exactly the input aspect ratio
(`w' : h' = w : h`, stated cross-multiplied). -/
theorem computeDims_ratio (w h : ℚ) (hw : 0 < w) (hh : 0 < h) :
    (computeDims w h).1 * h = (computeDims w h).2 * w := by
  unfold computeDims
  split_ifs with h1 h2 h3
  · field_simp
    ring
  · ring
  · field_simp
    ring
  · ring

/-- Truncation cannot push a dimension above the 800 bound. -/
theorem canvasDim_le_800 (q : ℚ) (hq : q ≤ 800) : canvasDim q ≤ 800 := by
  unfold canvasDim
  have h1 : ⌊q⌋ ≤ 800 := le_trans (Int.floor_le_floor hq) (by norm_num)
  exact Int.toNat_le.mpr h1

/-- The truncated dimension is at most the exact one. -/
theorem canvasDim_cast_le (q : ℚ) (hq : 0 ≤ q) : (canvasDim q : ℚ) ≤ q := by
  unfold canvasDim
  have h0 : 0 ≤ ⌊q⌋ := Int.floor_nonneg.mpr hq
  have h1 : ((⌊q⌋.toNat : ℕ) : ℚ) = ((⌊q⌋ : ℤ) : ℚ) := by
    exact_mod_cast Int.toNat_of_nonneg h0
  rw [h1]
  exact_mod_cast Int.floor_le q

/-- The truncated dimension is within one unit of the exact one. -/
theorem canvasDim_gt_sub_one (q : ℚ) (hq : 0 ≤ q) : q - 1 < (canvasDim q : ℚ) := by
  unfold canvasDim
  have h0 : 0 ≤ ⌊q⌋ := Int.floor_nonneg.mpr hq
  have h1 : ((⌊q⌋.toNat : ℕ) : ℚ) = ((⌊q⌋ : ℤ) : ℚ) := by
    exact_mod_cast Int.toNat_of_nonneg h0
  rw [h1]
  exact_mod_cast Int.sub_one_lt_floor q

/-- The code's computation refines the specification's sizing rule (the
code branches on `width > height` instead of `width ≥ height`, but for
`width = height` both branches produce the same pair). -/
theorem computeDims_eq_specTargetSize (w h : ℚ) (hw : 0 < w) (hh : 0 < h) :
    computeDims w h = specTargetSize w h := by
  unfold computeDims specTargetSize
  by_cases h1 : w > h
  · rw [if_pos h1, if_pos h1.le]
    by_cases h2 : w > 800
    · rw [if_pos h2, min_eq_right h2.le]
    · rw [if_neg h2, min_eq_left (not_lt.mp h2), div_self (ne_of_gt hw), mul_one]
  · rw [if_neg h1]
    rcases eq_or_lt_of_le (not_lt.mp h1) with heq | hlt
    · subst heq
      rw [if_pos le_rfl]
      by_cases h3 : w > 800
      · rw [if_pos h3, min_eq_right h3.le]
        have hs : w * (800 / w) = 800 := by field_simp
        rw [hs]
      · rw [if_neg h3, min_eq_left (not_lt.mp h3), div_self (ne_of_gt hw), mul_one]
    · rw [if_neg (not_le.mpr hlt)]
      by_cases h3 : h > 800
      · rw [if_pos h3, min_eq_right h3.le]
      · rw [if_neg h3, min_eq_left (not_lt.mp h3), div_self (ne_of_gt hh), mul_one]

/-! ## Claim C1 and C2 theorems -/

/-- C1: for every image file accepted by the normalizer (declared type
starts with `"image/"`, byte size at most 5,242,880, decode succeeds with
positive pixel dimensions), the output raster dimensions satisfy
`max(width, height) ≤ 800`, and the output width:height ratio equals the
input ratio up to rounding error: the exact scaled pair has exactly the
input ratio (cross-multiplied) and each output raster dimension is within
one unit below its exact value. -/
theorem claim_C1_accepted_output_bounded_and_ratio_preserved
    (file : JSFile) (w h : ℕ)
    (hty : jsStartsWith file.type "image/" = true)
    (hsz : file.size ≤ 5242880)
    (hdec : file.decode = some (w, h)) (hw : 0 < w) (hh : 0 < h) :
    max (outputDims w h).1 (outputDims w h).2 ≤ 800
      ∧ (computeDims (w : ℚ) (h : ℚ)).1 * (h : ℚ)
          = (computeDims (w : ℚ) (h : ℚ)).2 * (w : ℚ)
      ∧ ((outputDims w h).1 : ℚ) ≤ (computeDims (w : ℚ) (h : ℚ)).1
      ∧ (computeDims (w : ℚ) (h : ℚ)).1 - 1 < ((outputDims w h).1 : ℚ)
      ∧ ((outputDims w h).2 : ℚ) ≤ (computeDims (w : ℚ) (h : ℚ)).2
      ∧ (computeDims (w : ℚ) (h : ℚ)).2 - 1 < ((outputDims w h).2 : ℚ) := by
  have hwq : (0:ℚ) < (w:ℚ) := by exact_mod_cast hw
  have hhq : (0:ℚ) < (h:ℚ) := by exact_mod_cast hh
  obtain ⟨p1, p2, p3, p4⟩ := computeDims_bounds (w:ℚ) (h:ℚ) hwq hhq
  exact ⟨max_le (canvasDim_le_800 _ p3) (canvasDim_le_800 _ p4),
    computeDims_ratio (w:ℚ) (h:ℚ) hwq hhq,
    canvasDim_cast_le _ p1.le, canvasDim_gt_sub_one _ p1.le,
    canvasDim_cast_le _ p2.le, canvasDim_gt_sub_one _ p2.le⟩

/-- Witness for C1 at a concrete accepted file: a 1024-byte
`image/png` file decoding to 1600×1200. -/
theorem claim_C1_witness :
    max (outputDims 1600 1200).1 (outputDims 1600 1200).2 ≤ 800
      ∧ (computeDims (1600 : ℚ) (1200 : ℚ)).1 * (1200 : ℚ)
          = (computeDims (1600 : ℚ) (1200 : ℚ)).2 * (1600 : ℚ) :=
  ⟨(claim_C1_accepted_output_bounded_and_ratio_preserved
      ⟨"image/png", 1024, some (1600, 1200)⟩ 1600 1200
      (by decide) (by decide) rfl (by decide) (by decide)).1,
   (claim_C1_accepted_output_bounded_and_ratio_preserved
      ⟨"image/png", 1024, some (1600, 1200)⟩ 1600 1200
      (by decide) (by decide) rfl (by decide) (by decide)).2.1⟩

/-- C2: the normalizer's target size follows the stated rule (width ≥
height scales to width `min(width, 800)`, otherwise to height
`min(height, 800)`, the other side proportional); a 1600×1200 input yields
800×600, a 1200×1600 input yields 600×800, and an image already within
800×800 keeps its dimensions unchanged. -/
theorem claim_C2_target_size_rule (w h : ℚ) (hw : 0 < w) (hh : 0 < h) :
    computeDims w h = specTargetSize w h
      ∧ outputDims 1600 1200 = (800, 600)
      ∧ outputDims 1200 1600 = (600, 800)
      ∧ (w ≤ 800 → h ≤ 800 → computeDims w h = (w, h)) := by
  refine ⟨computeDims_eq_specTargetSize w h hw hh, ?_, ?_, ?_⟩
  · norm_num [outputDims, computeDims, canvasDim]
    decide
  · norm_num [outputDims, computeDims, canvasDim]
    decide
  · intro hw8 hh8
    unfold computeDims
    split_ifs with h1 h2 h3
    · exact absurd h2 (not_lt.mpr hw8)
    · rfl
    · exact absurd h3 (not_lt.mpr hh8)
    · rfl

/-- Witness for C2 at 1600×1200. -/
theorem claim_C2_witness :
    computeDims 1600 1200 = specTargetSize 1600 1200
      ∧ outputDims 1600 1200 = (800, 600) :=
  ⟨(claim_C2_target_size_rule 1600 1200 (by norm_num) (by norm_num)).1,
   (claim_C2_target_size_rule 1600 1200 (by norm_num) (by norm_num)).2.1⟩

/-! ## Helper lemmas: the handlers' case analysis -/

/-- A non-image declared type is rejected with the type message; the form
data is untouched and no decode is attempted. -/
theorem handleImageChange_badType (enc : JSFile → ℕ → ℕ → String) (file : JSFile)
    (s : AdminState) (hty : jsStartsWith file.type "image/" = false) :
    handleImageChange enc (some file) s
      = ({ s with error := some "Please select an image file" }, false) := by
  simp [handleImageChange, hty]

/-- An oversized file is rejected with the size message; the form data is
untouched and no decode is attempted. -/
theorem handleImageChange_oversize (enc : JSFile → ℕ → ℕ → String) (file : JSFile)
    (s : AdminState) (hty : jsStartsWith file.type "image/" = true)
    (hsz : 5242880 < file.size) :
    handleImageChange enc (some file) s
      = ({ s with error := some "Image size should be less than 5MB" }, false) := by
  have h5 : (5 * 1024 * 1024 : ℕ) = 5242880 := by norm_num
  simp [handleImageChange, hty, h5, hsz]

/-- A decode failure is caught and reported; the form data is untouched. -/
theorem handleImageChange_decodeFail (enc : JSFile → ℕ → ℕ → String) (file : JSFile)
    (s : AdminState) (hty : jsStartsWith file.type "image/" = true)
    (hsz : file.size ≤ 5242880) (hdec : file.decode = none) :
    handleImageChange enc (some file) s
      = ({ s with error := some "Error processing the image" }, true) := by
  have h5 : ¬ (file.size > 5 * 1024 * 1024) := by omega
  simp [handleImageChange, hty, h5, optimizeImage, hdec]

/-- An accepted file installs the normalized payload and clears the error. -/
theorem handleImageChange_accepted (enc : JSFile → ℕ → ℕ → String) (file : JSFile)
    (s : AdminState) (w h : ℕ) (hty : jsStartsWith file.type "image/" = true)
    (hsz : file.size ≤ 5242880) (hdec : file.decode = some (w, h)) :
    handleImageChange enc (some file) s
      = ({ s with
            formData := { s.formData with
              image := some { data := enc file (outputDims w h).1 (outputDims w h).2,
                              contentType := "image/jpeg",
                              alt := jsOrStr s.formData.name "" } },
            error := none }, true) := by
  have h5 : ¬ (file.size > 5 * 1024 * 1024) := by omega
  simp [handleImageChange, hty, h5, optimizeImage, hdec, outputDims]

/-- A missing required field aborts the submission before any call. -/
theorem handleSubmit_requiredMissing (ok fok : Bool) (fetched : List Product)
    (s : AdminState) (hreq : requiredMissing s.formData = true) :
    handleSubmit ok fok fetched s
      = ({ s with error := some "Please fill in all required fields" }, []) := by
  simp [handleSubmit, hreq]

/-- An absent image payload aborts the submission before any call. -/
theorem handleSubmit_imageNone (ok fok : Bool) (fetched : List Product)
    (s : AdminState) (hreq : requiredMissing s.formData = false)
    (himg : s.formData.image = none) :
    handleSubmit ok fok fetched s
      = ({ s with error := some "Please select an image" }, []) := by
  simp [handleSubmit, hreq, himg]

/-- An image payload with empty data aborts the submission likewise. -/
theorem handleSubmit_imageEmpty (ok fok : Bool) (fetched : List Product)
    (s : AdminState) (img : ImagePayload)
    (hreq : requiredMissing s.formData = false)
    (himg : s.formData.image = some img) (hdata : img.data = "") :
    handleSubmit ok fok fetched s
      = ({ s with error := some "Please select an image" }, []) := by
  simp [handleSubmit, hreq, himg, hdata]

/-- A non-positive parsed price (which includes the NaN-coerced 0) aborts
the submission before any call. -/
theorem handleSubmit_badPrice (ok fok : Bool) (fetched : List Product)
    (s : AdminState) (img : ImagePayload)
    (hreq : requiredMissing s.formData = false)
    (himg : s.formData.image = some img) (hdata : img.data ≠ "")
    (hp : priceSent s.formData ≤ 0) :
    handleSubmit ok fok fetched s
      = ({ s with error := some "Please enter a valid price" }, []) := by
  simp [handleSubmit, hreq, himg, hdata, mkDataToSend, hp]

/-- A negative parsed stock aborts the submission before any call. -/
theorem handleSubmit_badStock (ok fok : Bool) (fetched : List Product)
    (s : AdminState) (img : ImagePayload)
    (hreq : requiredMissing s.formData = false)
    (himg : s.formData.image = some img) (hdata : img.data ≠ "")
    (hp : 0 < priceSent s.formData) (hst : stockSent s.formData < 0) :
    handleSubmit ok fok fetched s
      = ({ s with error := some "Please enter a valid stock quantity" }, []) := by
  simp [handleSubmit, hreq, himg, hdata, mkDataToSend, hp.not_le, hst]

/-- A failing backend call sets the save error, issues exactly one call,
and changes nothing else. -/
theorem handleSubmit_backendFail (fok : Bool) (fetched : List Product)
    (s : AdminState) (img : ImagePayload)
    (hreq : requiredMissing s.formData = false)
    (himg : s.formData.image = some img) (hdata : img.data ≠ "")
    (hp : 0 < priceSent s.formData) (hst : 0 ≤ stockSent s.formData) :
    handleSubmit false fok fetched s
      = ({ s with error := some "Failed to save product" },
         [submitCall s.editingProduct (mkDataToSend s.formData img)]) := by
  simp [handleSubmit, hreq, himg, hdata, mkDataToSend, hp.not_le, hst.not_lt]

/-- On a fully valid submission with a successful backend call the form is
reset and exactly one call is issued. -/
theorem handleSubmit_success (fok : Bool) (fetched : List Product)
    (s : AdminState) (img : ImagePayload)
    (hreq : requiredMissing s.formData = false)
    (himg : s.formData.image = some img) (hdata : img.data ≠ "")
    (hp : 0 < priceSent s.formData) (hst : 0 ≤ stockSent s.formData) :
    handleSubmit true fok fetched s
      = (fetchProducts fok fetched
           { s with formData := emptyFormMen, error := none,
                    editingProduct := none, openDialog := false },
         [submitCall s.editingProduct (mkDataToSend s.formData img)]) := by
  simp [handleSubmit, hreq, himg, hdata, mkDataToSend, hp.not_le, hst.not_lt]

/-! ## The claims -/

/-- Helper: an invalid price (NaN or non-positive parse) makes the sent
price non-positive after the `|| 0` coercion. -/
theorem priceSent_nonpos_of_invalid (fd : FormData)
    (hbad : parseFloatVal fd.price = none
        ∨ ∃ p, parseFloatVal fd.price = some p ∧ p ≤ 0) :
    priceSent fd ≤ 0 := by
  rcases hbad with hn | ⟨p, hp, hple⟩
  · simp [priceSent, jsOrZeroQ, hn]
  · simpa [priceSent, jsOrZeroQ, hp] using hple

/-- C3 counterexample: a submission whose stock field is empty (hence
non-numeric: `parseInt('') ` is NaN) with all other fields valid is NOT
rejected — `parseInt(stock, 10) || 0` coerces it to 0, the validation
passes, a create call is issued and no error is set.  This refutes the
claim that a non-numeric or empty stock is rejected with no network
call. -/
theorem claim_C3_counterexample :
    (handleSubmit true true [] (wState c3EmptyStockForm)).2 ≠ []
      ∧ (handleSubmit true true [] (wState c3EmptyStockForm)).1.error = none := by
  simp +decide [handleSubmit, wState, c3EmptyStockForm, wFormValid, wImg,
    requiredMissing, JSVal.truthy, mkDataToSend, priceSent, stockSent,
    parseFloatVal, parseIntVal, jsParseFloat, jsParseInt, skipWS, jsSign,
    isJsWS, digitsVal, jsOrZeroQ, jsOrZeroZ, fetchProducts, emptyFormMen]

/-- C3 as amended: on an otherwise valid submission, a stock that parses
to a negative integer is rejected with the stock validation message and no
network call; a stock whose parse is NaN (non-numeric, including empty) is
coerced to 0 and the submission proceeds — exactly one call is issued, it
carries stock 0, and no stock validation error is raised. -/
theorem claim_C3_amended_stock_validation (ok fok : Bool) (fetched : List Product)
    (s : AdminState) (img : ImagePayload)
    (hreq : requiredMissing s.formData = false)
    (himg : s.formData.image = some img) (hdata : img.data ≠ "")
    (hp : 0 < priceSent s.formData) :
    (∀ z, parseIntVal s.formData.stock = some z → z < 0 →
        handleSubmit ok fok fetched s
          = ({ s with error := some "Please enter a valid stock quantity" }, []))
      ∧ (parseIntVal s.formData.stock = none →
          ∃ c, (handleSubmit ok fok fetched s).2 = [c] ∧ c.stockOf = 0
            ∧ (handleSubmit ok fok fetched s).1.error
                ≠ some "Please enter a valid stock quantity") := by
  constructor
  · intro z hz hneg
    exact handleSubmit_badStock ok fok fetched s img hreq himg hdata hp
      (by simpa [stockSent, jsOrZeroZ, hz] using hneg)
  · intro hnan
    have hst : stockSent s.formData = 0 := by simp [stockSent, jsOrZeroZ, hnan]
    have hst' : 0 ≤ stockSent s.formData := by simp [hst]
    refine ⟨submitCall s.editingProduct (mkDataToSend s.formData img), ?_, ?_, ?_⟩
    · cases ok with
      | false => rw [handleSubmit_backendFail fok fetched s img hreq himg hdata hp hst']
      | true => rw [handleSubmit_success fok fetched s img hreq himg hdata hp hst']
    · cases hc : s.editingProduct <;>
        simp [submitCall, NetworkCall.stockOf, mkDataToSend, hst]
    · cases ok with
      | false =>
        rw [handleSubmit_backendFail fok fetched s img hreq himg hdata hp hst']
        simp
      | true =>
        rw [handleSubmit_success fok fetched s img hreq himg hdata hp hst']
        cases fok <;> simp [fetchProducts]

/-- Witness for the amended C3: a typed stock of "-3" on an otherwise
valid form is rejected with the stock message and no call. -/
theorem claim_C3_amended_witness :
    handleSubmit true true [] (wState c3NegStockForm)
      = ({ wState c3NegStockForm with
            error := some "Please enter a valid stock quantity" }, []) :=
  (claim_C3_amended_stock_validation true true [] (wState c3NegStockForm) wImg
      (by decide) rfl (by decide)
      (by simp +decide [priceSent, wState, c3NegStockForm, wFormValid,
        parseFloatVal, jsParseFloat, skipWS, jsSign, isJsWS, digitsVal,
        jsOrZeroQ])).1
    (-3) (by decide) (by decide)

/-- C4: a submission whose price field parses to NaN (non-numeric) or to a
non-positive number is always rejected — some validation message is set
and no create/update call is issued (whichever validation fires first). -/
theorem claim_C4_invalid_price_rejected (ok fok : Bool) (fetched : List Product)
    (s : AdminState)
    (hbad : parseFloatVal s.formData.price = none
        ∨ ∃ p, parseFloatVal s.formData.price = some p ∧ p ≤ 0) :
    (handleSubmit ok fok fetched s).2 = []
      ∧ (handleSubmit ok fok fetched s).1.error.isSome = true := by
  have hp := priceSent_nonpos_of_invalid s.formData hbad
  cases hreq : requiredMissing s.formData with
  | true =>
    rw [handleSubmit_requiredMissing ok fok fetched s hreq]
    exact ⟨rfl, rfl⟩
  | false =>
    cases himg : s.formData.image with
    | none =>
      rw [handleSubmit_imageNone ok fok fetched s hreq himg]
      exact ⟨rfl, rfl⟩
    | some img =>
      by_cases hdata : img.data = ""
      · rw [handleSubmit_imageEmpty ok fok fetched s img hreq himg hdata]
        exact ⟨rfl, rfl⟩
      · rw [handleSubmit_badPrice ok fok fetched s img hreq himg hdata hp]
        exact ⟨rfl, rfl⟩

/-- Witness for C4: a non-numeric price "abc" on an otherwise valid form
is rejected with an error and no call. -/
theorem claim_C4_witness :
    (handleSubmit true true [] (wState c4BadPriceForm)).2 = []
      ∧ (handleSubmit true true [] (wState c4BadPriceForm)).1.error.isSome = true :=
  claim_C4_invalid_price_rejected true true [] (wState c4BadPriceForm)
    (Or.inl (by decide))

/-- C5: any file over 5,242,880 bytes is rejected by `handleImageChange`
with an error message, before any decode of the content is attempted
(returned flag `false`), and the form data — in particular its image
payload — is untouched. -/
theorem claim_C5_oversize_rejected_before_decode (enc : JSFile → ℕ → ℕ → String)
    (file : JSFile) (s : AdminState) (hsz : 5242880 < file.size) :
    (handleImageChange enc (some file) s).1.error.isSome = true
      ∧ (handleImageChange enc (some file) s).2 = false
      ∧ (handleImageChange enc (some file) s).1.formData = s.formData := by
  cases hty : jsStartsWith file.type "image/" with
  | false =>
    rw [handleImageChange_badType enc file s hty]
    exact ⟨rfl, rfl, rfl⟩
  | true =>
    rw [handleImageChange_oversize enc file s hty hsz]
    exact ⟨rfl, rfl, rfl⟩

/-- Witness for C5 at a 6,000,000-byte file. -/
theorem claim_C5_witness :
    (handleImageChange wEnc (some wFileBig) (wState wFormValid)).1.error.isSome = true
      ∧ (handleImageChange wEnc (some wFileBig) (wState wFormValid)).2 = false
      ∧ (handleImageChange wEnc (some wFileBig) (wState wFormValid)).1.formData
          = (wState wFormValid).formData :=
  claim_C5_oversize_rejected_before_decode wEnc wFileBig (wState wFormValid) (by decide)

/-- C6: a file whose declared MIME type does not start with "image/" is
rejected with the type message; the form data (so also `formData.image`)
is not assigned and no decode is attempted. -/
theorem claim_C6_nonimage_type_rejected (enc : JSFile → ℕ → ℕ → String)
    (file : JSFile) (s : AdminState)
    (hty : jsStartsWith file.type "image/" = false) :
    handleImageChange enc (some file) s
      = ({ s with error := some "Please select an image file" }, false) :=
  handleImageChange_badType enc file s hty

/-- Witness for C6 at a "text/plain" file. -/
theorem claim_C6_witness :
    handleImageChange wEnc (some wFileText) (wState wFormValid)
      = ({ wState wFormValid with error := some "Please select an image file" },
         false) :=
  claim_C6_nonimage_type_rejected wEnc wFileText (wState wFormValid) (by decide)

theorem claim_C7_uniform_failure_handling :
    (∀ (enc : JSFile → ℕ → ℕ → String) (file : JSFile) (s : AdminState),
        jsStartsWith file.type "image/" = false →
          handleImageChange enc (some file) s
            = ({ s with error := some "Please select an image file" }, false))
      ∧ (∀ (enc : JSFile → ℕ → ℕ → String) (file : JSFile) (s : AdminState),
          jsStartsWith file.type "image/" = true → 5242880 < file.size →
            handleImageChange enc (some file) s
              = ({ s with error := some "Image size should be less than 5MB" }, false))
      ∧ (∀ (enc : JSFile → ℕ → ℕ → String) (file : JSFile) (s : AdminState),
          jsStartsWith file.type "image/" = true → file.size ≤ 5242880 →
            file.decode = none →
              handleImageChange enc (some file) s
                = ({ s with error := some "Error processing the image" }, true))
      ∧ (∀ (ok fok : Bool) (fetched : List Product) (s : AdminState),
          requiredMissing s.formData = true →
            handleSubmit ok fok fetched s
              = ({ s with error := some "Please fill in all required fields" }, []))
      ∧ (∀ (ok fok : Bool) (fetched : List Product) (s : AdminState),
          requiredMissing s.formData = false → s.formData.image = none →
            handleSubmit ok fok fetched s
              = ({ s with error := some "Please select an image" }, []))
      ∧ (∀ (ok fok : Bool) (fetched : List Product) (s : AdminState)
            (img : ImagePayload),
          requiredMissing s.formData = false → s.formData.image = some img →
            img.data ≠ "" → priceSent s.formData ≤ 0 →
              handleSubmit ok fok fetched s
                = ({ s with error := some "Please enter a valid price" }, []))
      ∧ (∀ (ok fok : Bool) (fetched : List Product) (s : AdminState)
            (img : ImagePayload),
          requiredMissing s.formData = false → s.formData.image = some img →
            img.data ≠ "" → 0 < priceSent s.formData → stockSent s.formData < 0 →
              handleSubmit ok fok fetched s
                = ({ s with error := some "Please enter a valid stock quantity" }, []))
      ∧ (∀ (fok : Bool) (fetched : List Product) (s : AdminState)
            (img : ImagePayload),
          requiredMissing s.formData = false → s.formData.image = some img →
            img.data ≠ "" → 0 < priceSent s.formData → 0 ≤ stockSent s.formData →
              handleSubmit false fok fetched s
                = ({ s with error := some "Failed to save product" },
                   [submitCall s.editingProduct (mkDataToSend s.formData img)])) :=
  ⟨handleImageChange_badType, handleImageChange_oversize,
   handleImageChange_decodeFail,
   handleSubmit_requiredMissing, handleSubmit_imageNone,
   fun ok fok fetched s img hreq himg hdata hp =>
     handleSubmit_badPrice ok fok fetched s img hreq himg hdata hp,
   fun ok fok fetched s img hreq himg hdata hp hst =>
     handleSubmit_badStock ok fok fetched s img hreq himg hdata hp hst,
   fun fok fetched s img hreq himg hdata hp hst =>
     handleSubmit_backendFail fok fetched s img hreq himg hdata hp hst⟩

theorem claim_C7_witness :
    handleImageChange wEnc (some wFileText) (wState initialForm)
        = ({ wState initialForm with error := some "Please select an image file" }, false)
      ∧ handleImageChange wEnc (some wFileBig) (wState initialForm)
          = ({ wState initialForm with error := some "Image size should be less than 5MB" }, false)
      ∧ handleImageChange wEnc (some wFileBroken) (wState initialForm)
          = ({ wState initialForm with error := some "Error processing the image" }, true)
      ∧ handleSubmit true true [] (wState initialForm)
          = ({ wState initialForm with error := some "Please fill in all required fields" }, [])
      ∧ handleSubmit true true [] (wState c7NoImageForm)
          = ({ wState c7NoImageForm with error := some "Please select an image" }, [])
      ∧ handleSubmit true true [] (wState c7ZeroPriceForm)
          = ({ wState c7ZeroPriceForm with error := some "Please enter a valid price" }, [])
      ∧ handleSubmit true true [] (wState c3NegStockForm)
          = ({ wState c3NegStockForm with error := some "Please enter a valid stock quantity" }, [])
      ∧ handleSubmit false true [] (wState wFormValid)
          = ({ wState wFormValid with error := some "Failed to save product" },
             [submitCall (wState wFormValid).editingProduct
                (mkDataToSend (wState wFormValid).formData wImg)]) :=
  ⟨claim_C7_uniform_failure_handling.1 wEnc wFileText (wState initialForm) (by decide),
   claim_C7_uniform_failure_handling.2.1 wEnc wFileBig (wState initialForm)
     (by decide) (by decide),
   claim_C7_uniform_failure_handling.2.2.1 wEnc wFileBroken (wState initialForm)
     (by decide) (by decide) rfl,
   claim_C7_uniform_failure_handling.2.2.2.1 true true [] (wState initialForm)
     (by decide),
   claim_C7_uniform_failure_handling.2.2.2.2.1 true true [] (wState c7NoImageForm)
     (by decide) rfl,
   claim_C7_uniform_failure_handling.2.2.2.2.2.1 true true [] (wState c7ZeroPriceForm)
     wImg (by decide) rfl (by decide)
     (by simp +decide [priceSent, wState, c7ZeroPriceForm, wFormValid,
       parseFloatVal, jsParseFloat, skipWS, jsSign, isJsWS, digitsVal, jsOrZeroQ]),
   claim_C7_uniform_failure_handling.2.2.2.2.2.2.1 true true [] (wState c3NegStockForm)
     wImg (by decide) rfl (by decide)
     (by simp +decide [priceSent, wState, c3NegStockForm, wFormValid,
       parseFloatVal, jsParseFloat, skipWS, jsSign, isJsWS, digitsVal, jsOrZeroQ])
     (by decide),
   claim_C7_uniform_failure_handling.2.2.2.2.2.2.2 true [] (wState wFormValid)
     wImg (by decide) rfl (by decide)
     (by simp +decide [priceSent, wState, wFormValid,
       parseFloatVal, jsParseFloat, skipWS, jsSign, isJsWS, digitsVal, jsOrZeroQ])
     (by decide)⟩

theorem claim_C8_payload_is_jpeg_quality_08 (enc : JSFile → ℕ → ℕ → String)
    (file : JSFile) (s : AdminState) (w h : ℕ)
    (hty : jsStartsWith file.type "image/" = true)
    (hsz : file.size ≤ 5242880) (hdec : file.decode = some (w, h)) :
    ∃ u : DataURL, optimizeImage enc file = some u
      ∧ u.mime = "image/jpeg" ∧ u.quality = 4/5
      ∧ (handleImageChange enc (some file) s).1.formData.image
          = some { data := u.base64, contentType := "image/jpeg",
                   alt := jsOrStr s.formData.name "" } := by
  refine ⟨{ mime := "image/jpeg", quality := 4/5,
            base64 := enc file (outputDims w h).1 (outputDims w h).2 }, ?_, rfl, rfl, ?_⟩
  · simp [optimizeImage, hdec, outputDims]
  · rw [handleImageChange_accepted enc file s w h hty hsz hdec]

theorem claim_C8_witness :
    ∃ u : DataURL, optimizeImage wEnc wFileGood = some u
      ∧ u.mime = "image/jpeg" ∧ u.quality = 4/5
      ∧ (handleImageChange wEnc (some wFileGood) (wState wFormValid)).1.formData.image
          = some { data := u.base64, contentType := "image/jpeg",
                   alt := jsOrStr (wState wFormValid).formData.name "" } :=
  claim_C8_payload_is_jpeg_quality_08 wEnc wFileGood (wState wFormValid) 100 50
    (by decide) (by decide) rfl

theorem claim_C9_edit_clears_image_and_blocks_update (p : Product) (s : AdminState)
    (ok fok : Bool) (fetched : List Product)
    (hn : p.name ≠ "") (hd : p.description ≠ "") (hp : p.price ≠ 0)
    (hc : p.category ≠ "") :
    (handleEdit p s).formData.image = none
      ∧ handleSubmit ok fok fetched (handleEdit p s)
          = ({ handleEdit p s with error := some "Please select an image" }, []) := by
  have hreq : requiredMissing (handleEdit p s).formData = false := by
    simp [requiredMissing, handleEdit, JSVal.truthy, hn, hd, hp, hc]
  exact ⟨rfl, handleSubmit_imageNone ok fok fetched _ hreq rfl⟩

theorem claim_C9_witness :
    (handleEdit wProd (wState initialForm)).formData.image = none
      ∧ handleSubmit true true [] (handleEdit wProd (wState initialForm))
          = ({ handleEdit wProd (wState initialForm) with
                error := some "Please select an image" }, []) :=
  claim_C9_edit_clears_image_and_blocks_update wProd (wState initialForm) true true []
    (by decide) (by decide) (by simp [wProd]) (by decide)

theorem claim_C10_rejected_selection_preserves_form (enc : JSFile → ℕ → ℕ → String)
    (file : JSFile) (s : AdminState)
    (hrej : jsStartsWith file.type "image/" = false ∨ 5242880 < file.size
        ∨ file.decode = none) :
    (handleImageChange enc (some file) s).1.formData = s.formData
      ∧ (handleImageChange enc (some file) s).1.formData.image
          = s.formData.image := by
  have hfd : (handleImageChange enc (some file) s).1.formData = s.formData := by
    rcases hrej with hty | hsz | hdec
    · rw [handleImageChange_badType enc file s hty]
    · cases hty : jsStartsWith file.type "image/" with
      | false => rw [handleImageChange_badType enc file s hty]
      | true => rw [handleImageChange_oversize enc file s hty hsz]
    · cases hty : jsStartsWith file.type "image/" with
      | false => rw [handleImageChange_badType enc file s hty]
      | true =>
        by_cases hsz : 5242880 < file.size
        · rw [handleImageChange_oversize enc file s hty hsz]
        · rw [handleImageChange_decodeFail enc file s hty (by omega) hdec]
  exact ⟨hfd, by rw [hfd]⟩

theorem claim_C10_witness :
    (handleImageChange wEnc (some wFileBroken) (wState wFormValid)).1.formData
        = (wState wFormValid).formData
      ∧ (handleImageChange wEnc (some wFileBroken) (wState wFormValid)).1.formData.image
          = (wState wFormValid).formData.image :=
  claim_C10_rejected_selection_preserves_form wEnc wFileBroken (wState wFormValid)
    (Or.inr (Or.inr rfl))


end Tauty
